import Mathlib

/-!
Shallow embedding of two behavioral cores of the skyux2 widget library:

* the autocomplete controller, `SkyAutocompleteComponent`
  (src/modules/autocomplete/autocomplete.component.ts), and
* the infinite-scroll controller, `SkyInfiniteScrollComponent`.

Result records are modelled as association lists from field names to string
values.  Reading an absent field yields the empty string, matching the
JavaScript coercion `(result[property] || '')` used on the search path and
the fact that `undefined` and the empty string behave identically in every
truthiness test the component performs.  Emitted effects (dropdown messages,
selection-change events, search invocations, load signals) are returned
explicitly alongside the successor state.
-/

namespace SkyUX

/-- A search-result record: field name to string value. -/
abbrev Record := List (String × String)

/-- Field read `result[property]` with the JS fallback `(... || '')`:
an absent field reads as the empty string. -/
def fieldOf (r : Record) (p : String) : String :=
  (r.lookup p).getD ""

/-- Lowercasing as the component applies it, per character
(`searchText.toLowerCase()` and `event.key.toLowerCase()`). -/
def jsToLower (s : String) : String :=
  String.mk (s.toList.map Char.toLower)

/-- Whether `needle` is a prefix of some suffix of the second list. -/
def containsSubstrAux (needle : List Char) : List Char → Bool
  | [] => needle.isEmpty
  | c :: rest => needle.isPrefixOf (c :: rest) || containsSubstrAux needle rest

/-- String containment, `value.indexOf(needle) > -1`: `needle` occurs in
`value` as a contiguous substring. -/
def containsSubstr (value needle : String) : Bool :=
  containsSubstrAux needle.toList value.toList

/-! ## Autocomplete: default search -/

/-- One step of the match test in `defaultSearchFunction`:
`(result[property] || '').toString().toLowerCase().indexOf(searchTextLower) > -1`.
Here `q` is the already-lowercased search text. -/
def matchesProp (q : String) (result : Record) (p : String) : Bool :=
  containsSubstr (jsToLower (fieldOf result p)) q

/-- `isMatch` of `defaultSearchFunction`: `propertiesToSearch.find(...)`
returns the first matching property name, and the push is guarded by the
truthiness of that name, so a found empty-string property name counts as
no match. -/
def isMatchTruthy (props : List String) (q : String) (result : Record) : Bool :=
  match props.find? (fun p => matchesProp q result p) with
  | some p => p != ""
  | none => false

/-- The `for` loop of `defaultSearchFunction`, accumulating `results`.
`limitReached` is `searchResultsLimit && searchResultsLimit <= results.length`;
an unset limit is modelled as `0`, which is falsy exactly like the
JavaScript `undefined` or `0`. -/
def defaultSearchLoop (props : List String) (limit : Nat) (q : String) :
    List Record → List Record → List Record
  | [], results => results
  | result :: rest, results =>
    if limit ≠ 0 ∧ limit ≤ results.length then results
    else if isMatchTruthy props q result then
      defaultSearchLoop props limit q rest (results ++ [result])
    else
      defaultSearchLoop props limit q rest results

/-- `defaultSearchFunction(searchText)`: lowercase the query once, then run
the accumulation loop over the static dataset. -/
def defaultSearchFunction (data : List Record) (props : List String) (limit : Nat)
    (searchText : String) : List Record :=
  defaultSearchLoop props limit (jsToLower searchText) data []

/-- Modelled from the spec sentence for the default search: a record matches
when some configured field value, converted to lowercase, contains the
lowercase query as a substring. -/
def specMatches (props : List String) (q : String) (r : Record) : Bool :=
  props.any (fun p => containsSubstr (jsToLower (fieldOf r p)) (jsToLower q))

/-- Modelled from the spec sentence for the default search: the matching
records in dataset order, cut off as soon as the number of gathered results
reaches the configured limit. -/
def specDefaultSearch (data : List Record) (props : List String) (limit : Nat)
    (q : String) : List Record :=
  (data.filter (specMatches props q)).take limit

/-! ## Autocomplete: controller state and operations -/

/-- Dropdown messages sent on `dropdownMessageStream`. -/
inductive SkyDropdownMessageType where
  | Open
  | Close
  | FocusNextItem
  | FocusPreviousItem
  deriving DecidableEq, Repr

/-- The mutable state of `SkyAutocompleteComponent` that the modelled
operations read and write.  `inputValue` is the settable value of the bound
input collaborator (`inputDirective.value`). -/
structure AutoState where
  searchText : String
  searchResults : List Record
  searchResultsIndex : Nat
  inputValue : Option Record
  deriving DecidableEq, Repr

/-- The configuration inputs the modelled operations consult. -/
structure AutoConfig where
  descriptorProperty : String
  searchTextMinimumCharacters : Nat
  deriving DecidableEq, Repr

/-- Characters matched by the regex class backslash-s (the common ones). -/
def jsWhitespaceChars : List Char :=
  [' ', '\t', '\n', '\x0d', '\x0b', '\x0c', '\u00A0', '\uFEFF']

/-- Whether a character is JS whitespace. -/
def jsWhitespace (c : Char) : Bool :=
  jsWhitespaceChars.contains c

/-- The regex test `searchText.match(/^\s+$/)`: one or more characters, all
whitespace. -/
def matchesAllWhitespaceRegex (t : String) : Bool :=
  !t.isEmpty && t.toList.all jsWhitespace

/-- `isSearchTextEmpty`: `!searchText || searchText.match(/^\s+$/)`. -/
def isSearchTextEmpty (t : String) : Bool :=
  t.isEmpty || matchesAllWhitespaceRegex t

/-- `searchText.trim()`: strip leading and trailing JS whitespace. -/
def jsTrim (t : String) : String :=
  String.mk (((t.toList.dropWhile jsWhitespace).reverse.dropWhile jsWhitespace).reverse)

/-- `hasSearchResults()`: `searchResults && searchResults.length > 0`. -/
def hasSearchResults (s : AutoState) : Bool :=
  !s.searchResults.isEmpty

/-- `closeDropdown()`: clear the results and emit a Close message. -/
def closeDropdown (s : AutoState) : AutoState × List SkyDropdownMessageType :=
  ({ s with searchResults := [] }, [SkyDropdownMessageType.Close])

/-- `searchTextChanged(searchText)`.  The pluggable search function is the
`search` argument; `performSearch` resolves an immediate array and a promise
uniformly, so the completion callback is run inline.  The third component
lists the queries the search function was invoked with. -/
def searchTextChanged (cfg : AutoConfig) (search : String → List Record)
    (s : AutoState) (searchText : String) :
    AutoState × List SkyDropdownMessageType × List String :=
  if isSearchTextEmpty searchText then
    let s1 := { s with searchText := "" }
    let closed := closeDropdown s1
    (closed.1, closed.2, [])
  else
    if cfg.searchTextMinimumCharacters ≤ searchText.length ∧ searchText ≠ s.searchText then
      let trimmed := jsTrim searchText
      let s1 := { s with searchText := trimmed }
      let results := search trimmed
      ({ s1 with searchResults := results }, [SkyDropdownMessageType.Open], [trimmed])
    else
      (s, [], [])

/-- `selectActiveSearchResult()`.  Reading `searchResults[searchResultsIndex]`
past the end of the list would make the subsequent property read throw in
JavaScript; that case is `none`.  The third component lists the records
carried by emitted selection-change events. -/
def selectActiveSearchResult (cfg : AutoConfig) (s : AutoState) :
    Option (AutoState × List SkyDropdownMessageType × List Record) :=
  if hasSearchResults s then
    match s.searchResults.get? s.searchResultsIndex with
    | some result =>
      let s1 := { s with searchText := fieldOf result cfg.descriptorProperty,
                         inputValue := some result }
      let closed := closeDropdown s1
      some (closed.1, closed.2, [result])
    | none => none
  else
    some (s, [], [])

/-- `handleKeyDown(event)` restricted to the effects modelled here: the key
is lowercased and dispatched; tab and enter select the active result only
when results exist. -/
def handleKeyDown (cfg : AutoConfig) (s : AutoState) (key : String) :
    Option (AutoState × List SkyDropdownMessageType × List Record) :=
  let k := jsToLower key
  if k == "arrowdown" then
    some (s, [SkyDropdownMessageType.FocusNextItem], [])
  else if k == "arrowup" then
    some (s, [SkyDropdownMessageType.FocusPreviousItem], [])
  else if k == "tab" || k == "enter" then
    if hasSearchResults s then selectActiveSearchResult cfg s
    else some (s, [], [])
  else if k == "escape" then
    let closed := closeDropdown s
    some (closed.1, closed.2, [])
  else
    some (s, [], [])

/-- `onSearchResultClick(index)`: set the active index, then select. -/
def onSearchResultClick (cfg : AutoConfig) (s : AutoState) (index : Nat) :
    Option (AutoState × List SkyDropdownMessageType × List Record) :=
  selectActiveSearchResult cfg { s with searchResultsIndex := index }

/-! ## Autocomplete: initialization -/

/-- The bound input collaborator (`SkyAutocompleteInputDirective`): a settable
descriptor property and a settable bound value. -/
structure InputDirective where
  descriptorProperty : String
  value : Option Record
  deriving DecidableEq, Repr

/-- Side effects of initialization other than the directive update. -/
inductive InitAction where
  | subscribeSearchTextChange
  deriving DecidableEq, Repr

/-- `ngAfterContentInit()`: a missing content-child input directive throws
synchronously, before any subscription is made; otherwise the descriptor
property is copied onto the directive and the search-text-change
subscription is registered. -/
def ngAfterContentInit (descriptorProperty : String) :
    Option InputDirective → Except String (InputDirective × List InitAction)
  | none =>
    Except.error
      (String.join
        ["The SkyAutocompleteComponent requires a TemplateChild input ",
         "or textarea bound with the SkyAutocomplete directive. ",
         "For example: `<input type=\"text\" skyAutocomplete>`."])
  | some dir =>
    Except.ok ({ dir with descriptorProperty := descriptorProperty },
      [InitAction.subscribeSearchTextChange])

/-! ## Infinite scroll -/

/-- The DOM quantities the infinite-scroll handlers read: the trigger element
offset (`element.nativeElement.offsetTop`) and the scroll geometry of the
scrollable parent (window fields and element fields). -/
structure ScrollEnv where
  offsetTop : Int
  scrollY : Int
  innerHeight : Int
  scrollTop : Int
  clientHeight : Int
  deriving DecidableEq, Repr

/-- The mutable state of `SkyInfiniteScrollComponent`: the `hasMore` input,
the `isLoading` subject value, and the recorded `elementPosition`. -/
structure ScrollState where
  hasMore : Bool
  isLoading : Bool
  elementPosition : Int
  deriving DecidableEq, Repr

/-- `infiniteScrollInView()`: window viewports compare
`scrollY + innerHeight` with the trigger offset, element viewports compare
`scrollTop + clientHeight` with it. -/
def infiniteScrollInView (scrollableParentIsWindow : Bool) (env : ScrollEnv) : Bool :=
  if scrollableParentIsWindow then
    decide (env.scrollY + env.innerHeight > env.offsetTop)
  else
    decide (env.scrollTop + env.clientHeight > env.offsetTop)

/-- `startInfiniteScrollLoad()`, the scroll listener body.  The boolean
result records whether `onLoad` emitted. -/
def startInfiniteScrollLoad (isWin : Bool) (env : ScrollEnv) (s : ScrollState) :
    ScrollState × Bool :=
  if s.hasMore && !s.isLoading && infiniteScrollInView isWin env then
    ({ s with isLoading := true }, true)
  else if s.isLoading && env.offsetTop != s.elementPosition then
    ({ s with elementPosition := env.offsetTop, isLoading := false }, false)
  else
    (s, false)

/-- The `DOMNodeInserted` listener registered in `ngOnInit`: the same
loading-reset check as the scroll path, with no load emission. -/
def onDomNodeInserted (env : ScrollEnv) (s : ScrollState) : ScrollState :=
  if s.isLoading && env.offsetTop != s.elementPosition then
    { s with elementPosition := env.offsetTop, isLoading := false }
  else
    s

/-! ## Infinite scroll: scrollable-parent resolution

A DOM ancestor chain is modelled from the trigger element up to the document
body; every element carries its `overflow-y` style.  The `element.length <= 0`
test of the source is always false on DOM elements (`undefined <= 0` is
false in JavaScript), so the base case of the walk is reaching the body. -/

/-- An element together with its ancestor chain, ending at the document body. -/
inductive DomElem where
  | body (overflowY : String)
  | node (overflowY : String) (parent : DomElem)
  deriving DecidableEq, Repr

/-- The overflow-y style of an element. -/
def overflowYOf : DomElem → String
  | DomElem.body o => o
  | DomElem.node o _ => o

/-- `parentEl.style['overflow-y'] === 'auto' || ... === 'scroll'`. -/
def isScrollable (e : DomElem) : Bool :=
  overflowYOf e == "auto" || overflowYOf e == "scroll"

/-- The result of `getScrollableParent`: the window or an ancestor element. -/
inductive ScrollableParent where
  | window
  | elem (e : DomElem)
  deriving DecidableEq, Repr

/-- `getScrollableParent(element)`, paired with the final value of the
`scrollableParentIsWindow` flag (initially false, set only on the window
path). -/
def getScrollableParent : DomElem → ScrollableParent × Bool
  | DomElem.body _ => (ScrollableParent.window, true)
  | DomElem.node _ parent =>
    if isScrollable parent then (ScrollableParent.elem parent, false)
    else getScrollableParent parent

/-- The strict ancestors of an element, nearest first, up to the body. -/
def ancestors : DomElem → List DomElem
  | DomElem.body _ => []
  | DomElem.node _ parent => parent :: ancestors parent

/-! ## Concrete fixtures used by witnesses and counterexamples -/

/-- The first record of the worked example in the spec. -/
def recAnn : Record := [("name", "Ann")]

/-- The second record of the worked example in the spec. -/
def recAnna : Record := [("name", "Anna")]

/-- The third record of the worked example in the spec. -/
def recBob : Record := [("name", "Bob")]

/-- The dataset of the worked example in the spec. -/
def exampleData : List Record := [recAnn, recAnna, recBob]

/-- A default-like configuration: descriptor `name`, minimum one character. -/
def cfgDefault : AutoConfig := { descriptorProperty := "name", searchTextMinimumCharacters := 1 }

/-- A configuration with a three-character minimum. -/
def cfgMin3 : AutoConfig := { descriptorProperty := "name", searchTextMinimumCharacters := 3 }

/-- An autocomplete state with one result and the cursor on it. -/
def stOneResult : AutoState :=
  { searchText := "an", searchResults := [recAnn], searchResultsIndex := 0, inputValue := none }

/-- An autocomplete state with stale results and a committed text. -/
def stStale : AutoState :=
  { searchText := "old", searchResults := [recBob], searchResultsIndex := 0,
    inputValue := some recBob }

/-- A scroll geometry whose element viewport shows the trigger
(scrollTop 10 + clientHeight 10 > offsetTop 5). -/
def envInView : ScrollEnv :=
  { offsetTop := 5, scrollY := 0, innerHeight := 0, scrollTop := 10, clientHeight := 10 }

/-- The same geometry after content moved the trigger to offset 40. -/
def envMoved : ScrollEnv :=
  { offsetTop := 40, scrollY := 0, innerHeight := 0, scrollTop := 10, clientHeight := 10 }

/-- A window-viewport geometry with the trigger in view
(scrollY 5 + innerHeight 10 > offsetTop 12). -/
def envWindow : ScrollEnv :=
  { offsetTop := 12, scrollY := 5, innerHeight := 10, scrollTop := 0, clientHeight := 0 }

/-- An idle scroll state: more content, not loading, trigger recorded at 5. -/
def stIdle : ScrollState := { hasMore := true, isLoading := false, elementPosition := 5 }

/-- A loading scroll state with the trigger recorded at 5. -/
def stLoading : ScrollState := { hasMore := true, isLoading := true, elementPosition := 5 }

/-- A scrollable ancestor element sitting directly under the body. -/
def scrollDiv : DomElem := DomElem.node "auto" (DomElem.body "visible")

/-- A trigger whose nearest ancestor is `scrollDiv`. -/
def chainScrollable : DomElem := DomElem.node "visible" scrollDiv

/-- A trigger none of whose ancestors up to the body is scrollable. -/
def chainNoScroll : DomElem :=
  DomElem.node "visible" (DomElem.node "hidden" (DomElem.body "visible"))

/-- A directive fixture for the initialization witness. -/
def dirFixture : InputDirective := { descriptorProperty := "", value := none }

/-! ## Theorems -/

/-- When every configured property name is nonempty, the truthiness test on
the property name returned by `find` collapses to plain existence of a
matching property. -/
theorem isMatchTruthy_eq_any (props : List String) (q : String) (r : Record)
    (h : ∀ p ∈ props, p ≠ "") :
    isMatchTruthy props q r = props.any (fun p => matchesProp q r p) := by
  unfold isMatchTruthy
  cases hf : props.find? (fun p => matchesProp q r p) with
  | none =>
    have hall : props.any (fun p => matchesProp q r p) = false := by
      rw [List.any_eq_false]
      intro p hp
      simpa using List.find?_eq_none.mp hf p hp
    rw [hall]
  | some p =>
    have hp : p ∈ props := List.mem_of_find?_eq_some hf
    have hpred : matchesProp q r p = true := List.find?_some hf
    have hany : props.any (fun p => matchesProp q r p) = true :=
      List.any_eq_true.mpr ⟨p, hp, hpred⟩
    rw [hany]
    simpa [bne_iff_ne] using h p hp

/-- Closed form of the accumulation loop for a positive limit. -/
theorem defaultSearchLoop_eq (props : List String) (limit : Nat) (q : String)
    (hlim : 0 < limit) (l : List Record) :
    ∀ results : List Record,
      defaultSearchLoop props limit q l results =
        if limit ≤ results.length then results
        else results ++
          (l.filter (fun r => isMatchTruthy props q r)).take (limit - results.length) := by
  induction l with
  | nil =>
    intro results
    unfold defaultSearchLoop
    by_cases h : limit ≤ results.length <;> simp [h]
  | cons result rest ih =>
    intro results
    unfold defaultSearchLoop
    by_cases h : limit ≤ results.length
    · rw [if_pos ⟨Nat.pos_iff_ne_zero.mp hlim, h⟩, if_pos h]
    · rw [if_neg (fun hc => h hc.2), if_neg h]
      obtain ⟨k, hk⟩ : ∃ k, limit - results.length = k + 1 :=
        ⟨limit - results.length - 1, by omega⟩
      by_cases hm : isMatchTruthy props q result
      · rw [if_pos hm, ih (results ++ [result])]
        simp only [List.filter_cons, hm, if_pos, List.length_append, List.length_singleton]
        rw [hk, List.take_succ_cons]
        by_cases h2 : limit ≤ results.length + 1
        · rw [if_pos h2]
          have hk0 : k = 0 := by omega
          simp [hk0]
        · rw [if_neg h2]
          have : limit - (results.length + 1) = k := by omega
          rw [this]
          simp
      · rw [if_neg hm, ih results, if_neg h]
        simp only [List.filter_cons, hm]
        rfl

/-- Claim C1 counterexample: with a configured result limit of 0, the code
treats the falsy limit as absent and returns the matching record, while the
claimed behavior (stop as soon as the number of gathered results reaches the
limit) yields the empty list. -/
theorem defaultSearch_limit_zero_cex :
    defaultSearchFunction [[("name", "an")]] ["name"] 0 "an" ≠
      specDefaultSearch [[("name", "an")]] ["name"] 0 "an" := by
  decide

/-- Claim C1 (amended): for every dataset, every list of nonempty configured
field names, every positive result limit, and every query, the default search
returns exactly the matching records (some configured field value, lowercased,
contains the lowercase query), in dataset order, truncated at the limit. -/
theorem defaultSearch_eq_spec (data : List Record) (props : List String)
    (limit : Nat) (q : String) (hlim : 0 < limit)
    (hprops : ∀ p ∈ props, p ≠ "") :
    defaultSearchFunction data props limit q = specDefaultSearch data props limit q := by
  unfold defaultSearchFunction specDefaultSearch
  rw [defaultSearchLoop_eq props limit (jsToLower q) hlim data []]
  rw [if_neg (by simpa using Nat.not_le.mpr hlim)]
  simp only [List.nil_append, List.length_nil, Nat.sub_zero]
  congr 1
  apply List.filter_congr
  intro r _
  rw [isMatchTruthy_eq_any props (jsToLower q) r hprops]
  rfl

/-- Witness for C1: the worked example of the spec, limit 2, fields `name`,
query `an`, yields the Ann and Anna records in order. -/
theorem defaultSearch_eq_spec_witness :
    defaultSearchFunction exampleData ["name"] 2 "an" =
      specDefaultSearch exampleData ["name"] 2 "an" ∧
    specDefaultSearch exampleData ["name"] 2 "an" = [recAnn, recAnna] :=
  ⟨defaultSearch_eq_spec exampleData ["name"] 2 "an" (by decide) (by decide),
   by decide⟩

/-- Claim C2: at most one load request is outstanding.  When `hasMore` holds,
the controller is not loading, and the trigger is in view, a scroll event
emits exactly one load signal and flips `isLoading` on; while loading no
scroll event emits; and a second scroll event before the trigger offset
changes emits nothing and leaves the state unchanged. -/
theorem infiniteScroll_single_outstanding_load (isWin : Bool) (env : ScrollEnv)
    (s : ScrollState) :
    (s.hasMore = true → s.isLoading = false → infiniteScrollInView isWin env = true →
      startInfiniteScrollLoad isWin env s = ({ s with isLoading := true }, true)) ∧
    (s.isLoading = true → (startInfiniteScrollLoad isWin env s).2 = false) ∧
    (s.isLoading = true → env.offsetTop = s.elementPosition →
      startInfiniteScrollLoad isWin env s = (s, false)) ∧
    (s.hasMore = true → s.isLoading = false → infiniteScrollInView isWin env = true →
      env.offsetTop = s.elementPosition →
      startInfiniteScrollLoad isWin env (startInfiniteScrollLoad isWin env s).1 =
        ((startInfiniteScrollLoad isWin env s).1, false)) := by
  refine ⟨?_, ?_, ?_, ?_⟩
  · intro h1 h2 h3
    unfold startInfiniteScrollLoad
    rw [h1, h2, h3]
    rfl
  · intro h
    unfold startInfiniteScrollLoad
    rw [h]
    simp only [Bool.not_true, Bool.and_false, Bool.false_and, Bool.false_eq_true, if_false,
      Bool.true_and]
    by_cases hb : (env.offsetTop != s.elementPosition) = true
    · rw [if_pos hb]
    · rw [if_neg hb]
  · intro h heq
    unfold startInfiniteScrollLoad
    rw [h, heq]
    simp
  · intro h1 h2 h3 h4
    have hfst : startInfiniteScrollLoad isWin env s = ({ s with isLoading := true }, true) := by
      unfold startInfiniteScrollLoad
      rw [h1, h2, h3]
      rfl
    rw [hfst]
    unfold startInfiniteScrollLoad
    simp [h4]

/-- Witness for C2: from the idle in-view fixture, one scroll event emits the
load signal and turns on loading; a second scroll event with the geometry
unchanged emits nothing. -/
theorem infiniteScroll_single_outstanding_load_witness :
    startInfiniteScrollLoad false envInView stIdle =
      ({ stIdle with isLoading := true }, true) ∧
    (startInfiniteScrollLoad false envInView
      (startInfiniteScrollLoad false envInView stIdle).1).2 = false := by
  have h := infiniteScroll_single_outstanding_load false envInView stIdle
  refine ⟨h.1 rfl rfl (by decide), ?_⟩
  rw [h.2.2.2 rfl rfl (by decide) rfl]

/-- Claim C3: selecting the active result is a no-op on an empty result list;
with the record at the active index present it commits that record's display
field as the search text, writes the record into the bound input, emits one
selection-change event with the record, and closes the dropdown (results
cleared, Close emitted).  Both the tab and enter key paths and the
result-click path reduce to this operation. -/
theorem selectActiveSearchResult_spec (cfg : AutoConfig) (s : AutoState) :
    (s.searchResults = [] → selectActiveSearchResult cfg s = some (s, [], [])) ∧
    (∀ result, s.searchResults.get? s.searchResultsIndex = some result →
      selectActiveSearchResult cfg s =
        some ({ s with searchText := fieldOf result cfg.descriptorProperty,
                       inputValue := some result, searchResults := [] },
          [SkyDropdownMessageType.Close], [result])) ∧
    handleKeyDown cfg s "enter" = selectActiveSearchResult cfg s ∧
    handleKeyDown cfg s "tab" = selectActiveSearchResult cfg s ∧
    (∀ index, onSearchResultClick cfg s index =
      selectActiveSearchResult cfg { s with searchResultsIndex := index }) := by
  refine ⟨?_, ?_, ?_, ?_, fun _ => rfl⟩
  · intro h
    unfold selectActiveSearchResult hasSearchResults
    rw [h]
    rfl
  · intro result hget
    have hne : s.searchResults ≠ [] := by
      intro h0
      rw [h0] at hget
      cases hget
    unfold selectActiveSearchResult hasSearchResults
    rw [hget]
    simp [List.isEmpty_iff, hne, closeDropdown]
  · show (if hasSearchResults s then selectActiveSearchResult cfg s
      else some (s, [], [])) = selectActiveSearchResult cfg s
    by_cases hs : hasSearchResults s = true
    · rw [if_pos hs]
    · rw [if_neg hs]
      unfold selectActiveSearchResult
      rw [if_neg hs]
  · show (if hasSearchResults s then selectActiveSearchResult cfg s
      else some (s, [], [])) = selectActiveSearchResult cfg s
    by_cases hs : hasSearchResults s = true
    · rw [if_pos hs]
    · rw [if_neg hs]
      unfold selectActiveSearchResult
      rw [if_neg hs]

/-- Witness for C3: selecting from the one-result fixture commits `Ann`,
writes the record into the input, emits it, and closes the dropdown. -/
theorem selectActiveSearchResult_spec_witness :
    selectActiveSearchResult cfgDefault stOneResult =
      some ({ stOneResult with searchText := fieldOf recAnn "name",
                               inputValue := some recAnn, searchResults := [] },
        [SkyDropdownMessageType.Close], [recAnn]) :=
  (selectActiveSearchResult_spec cfgDefault stOneResult).2.1 recAnn rfl

/-- Claim C4: while loading, as soon as the trigger offset differs from the
recorded element position, both the scroll path and the DOM-insertion path
record the new offset and clear the loading flag, after which a scroll event
with the trigger in view emits a new load signal. -/
theorem infiniteScroll_loading_reset (isWin : Bool) (env : ScrollEnv) (s : ScrollState)
    (hload : s.isLoading = true) (hne : env.offsetTop ≠ s.elementPosition) :
    startInfiniteScrollLoad isWin env s =
      ({ s with elementPosition := env.offsetTop, isLoading := false }, false) ∧
    onDomNodeInserted env s =
      { s with elementPosition := env.offsetTop, isLoading := false } ∧
    (∀ env2, s.hasMore = true → infiniteScrollInView isWin env2 = true →
      (startInfiniteScrollLoad isWin env2 (startInfiniteScrollLoad isWin env s).1).2
        = true) := by
  have hreset : startInfiniteScrollLoad isWin env s =
      ({ s with elementPosition := env.offsetTop, isLoading := false }, false) := by
    unfold startInfiniteScrollLoad
    rw [hload]
    simp [bne_iff_ne, hne]
  refine ⟨hreset, ?_, ?_⟩
  · unfold onDomNodeInserted
    rw [hload]
    simp [bne_iff_ne, hne]
  · intro env2 hmore hview
    rw [hreset]
    unfold startInfiniteScrollLoad
    simp [hmore, hview]

/-- Witness for C4: from the loading fixture with the trigger moved from 5 to
40, both paths reset, and the idle geometry then re-emits a load. -/
theorem infiniteScroll_loading_reset_witness :
    startInfiniteScrollLoad false envMoved stLoading =
      ({ stLoading with elementPosition := 40, isLoading := false }, false) ∧
    onDomNodeInserted envMoved stLoading =
      { stLoading with elementPosition := 40, isLoading := false } ∧
    (startInfiniteScrollLoad false envInView
      (startInfiniteScrollLoad false envMoved stLoading).1).2 = true := by
  have h := infiniteScroll_loading_reset false envMoved stLoading rfl (by decide)
  exact ⟨h.1, h.2.1, h.2.2 envInView rfl (by decide)⟩

/-- Claim C5: the scrollable-parent walk returns the nearest ancestor whose
overflow-y style is auto or scroll, and returns the window with the
window flag set when no ancestor up to the document body is scrollable. -/
theorem getScrollableParent_spec (e : DomElem) :
    getScrollableParent e =
      match (ancestors e).find? isScrollable with
      | some a => (ScrollableParent.elem a, false)
      | none => (ScrollableParent.window, true) := by
  induction e with
  | body o => rfl
  | node o parent ih =>
    unfold getScrollableParent ancestors
    rw [List.find?_cons]
    by_cases h : isScrollable parent = true
    · rw [if_pos h, h]
    · rw [if_neg h, Bool.not_eq_true] at *
      rw [h, ih]

/-- Witness for C5: a chain with no scrollable ancestor resolves to the
window with the flag set; a chain with a scrollable ancestor resolves to
that ancestor. -/
theorem getScrollableParent_spec_witness :
    getScrollableParent chainNoScroll = (ScrollableParent.window, true) ∧
    getScrollableParent chainScrollable = (ScrollableParent.elem scrollDiv, false) := by
  constructor
  · rw [getScrollableParent_spec]
    rfl
  · rw [getScrollableParent_spec]
    rfl

/-- Claim C6: a non-empty, non-whitespace text shorter than the configured
minimum invokes no search, emits no dropdown message, and leaves the state
unchanged. -/
theorem searchTextChanged_below_minimum_noop (cfg : AutoConfig)
    (search : String → List Record) (s : AutoState) (text : String)
    (hne : isSearchTextEmpty text = false)
    (hshort : text.length < cfg.searchTextMinimumCharacters) :
    searchTextChanged cfg search s text = (s, [], []) := by
  unfold searchTextChanged
  rw [hne]
  simp only [Bool.false_eq_true, if_false]
  rw [if_neg]
  rintro ⟨h1, -⟩
  exact absurd h1 (Nat.not_le.mpr hshort)

/-- Witness for C6: a two-character text under a three-character minimum is a
complete no-op. -/
theorem searchTextChanged_below_minimum_noop_witness :
    searchTextChanged cfgMin3 (fun _ => [recAnn]) stStale "ab" = (stStale, [], []) :=
  searchTextChanged_below_minimum_noop cfgMin3 (fun _ => [recAnn]) stStale "ab"
    (by decide) (by decide)

/-- Claim C7: empty or whitespace-only text resets the committed text to the
empty string, clears the results, and emits a single Close message, invoking
no search, from any prior state. -/
theorem searchTextChanged_empty_resets (cfg : AutoConfig)
    (search : String → List Record) (s : AutoState) (text : String)
    (h : isSearchTextEmpty text = true) :
    searchTextChanged cfg search s text =
      ({ s with searchText := "", searchResults := [] },
        [SkyDropdownMessageType.Close], []) := by
  unfold searchTextChanged
  rw [h]
  rfl

/-- Witness for C7: a whitespace-only text resets the stale fixture state. -/
theorem searchTextChanged_empty_resets_witness :
    searchTextChanged cfgDefault (fun _ => [recAnn]) stStale "  " =
      ({ stStale with searchText := "", searchResults := [] },
        [SkyDropdownMessageType.Close], []) :=
  searchTextChanged_empty_resets cfgDefault (fun _ => [recAnn]) stStale "  " (by decide)

/-- Claim C8: the in-view predicate compares `scrollY + innerHeight` with the
trigger offset for a window viewport and `scrollTop + clientHeight` with it
for an element viewport, holding exactly on strict excess. -/
theorem infiniteScrollInView_spec (isWin : Bool) (env : ScrollEnv) :
    (isWin = true →
      (infiniteScrollInView isWin env = true ↔
        env.scrollY + env.innerHeight > env.offsetTop)) ∧
    (isWin = false →
      (infiniteScrollInView isWin env = true ↔
        env.scrollTop + env.clientHeight > env.offsetTop)) := by
  constructor <;> intro h <;> subst h <;> simp [infiniteScrollInView]

/-- Witness for C8: the window fixture has 5 + 10 > 12, so the trigger is in
view of the window viewport. -/
theorem infiniteScrollInView_spec_witness :
    infiniteScrollInView true envWindow = true :=
  ((infiniteScrollInView_spec true envWindow).1 rfl).mpr (by decide)

/-- Claim C9: when the invoked search completes with an empty list, the
controller still replaces the results with the empty list and emits an Open
message; the open path does not test result emptiness. -/
theorem searchTextChanged_empty_results_open (cfg : AutoConfig)
    (search : String → List Record) (s : AutoState) (text : String)
    (hne : isSearchTextEmpty text = false)
    (hlen : cfg.searchTextMinimumCharacters ≤ text.length)
    (hdiff : text ≠ s.searchText)
    (hres : search (jsTrim text) = []) :
    searchTextChanged cfg search s text =
      ({ s with searchText := jsTrim text, searchResults := [] },
        [SkyDropdownMessageType.Open], [jsTrim text]) := by
  unfold searchTextChanged
  rw [hne]
  simp only [Bool.false_eq_true, if_false]
  rw [if_pos ⟨hlen, hdiff⟩, hres]

/-- Witness for C9: a query with no matches still opens the dropdown over an
empty result list. -/
theorem searchTextChanged_empty_results_open_witness :
    searchTextChanged cfgDefault (fun _ => []) stStale "zz" =
      ({ stStale with searchText := jsTrim "zz", searchResults := [] },
        [SkyDropdownMessageType.Open], [jsTrim "zz"]) :=
  searchTextChanged_empty_results_open cfgDefault (fun _ => []) stStale "zz"
    (by decide) (by decide) (by decide) rfl

/-- Claim C10: initialization with the bound input directive absent fails
synchronously with a configuration error and registers no subscription
(the error result carries no init actions); with the directive present it
succeeds, copying the descriptor property and subscribing to search-text
changes. -/
theorem ngAfterContentInit_spec (dp : String) :
    (∃ msg, ngAfterContentInit dp none = Except.error msg) ∧
    (∀ dir, ngAfterContentInit dp (some dir) =
      Except.ok ({ dir with descriptorProperty := dp },
        [InitAction.subscribeSearchTextChange])) :=
  ⟨⟨_, rfl⟩, fun _ => rfl⟩

/-- Witness for C10: with descriptor `name`, the missing-directive case
errors and the fixture-directive case succeeds. -/
theorem ngAfterContentInit_spec_witness :
    (∃ msg, ngAfterContentInit "name" none = Except.error msg) ∧
    ngAfterContentInit "name" (some dirFixture) =
      Except.ok ({ dirFixture with descriptorProperty := "name" },
        [InitAction.subscribeSearchTextChange]) :=
  ⟨(ngAfterContentInit_spec "name").1, (ngAfterContentInit_spec "name").2 dirFixture⟩

end SkyUX
